import Mathlib

/-!
Verification development for the slack-bot-gpt repository.

The embedded code comes from:
  - src/utils/slackVerifier.ts   (verifySlackSignature, validateTimestamp)
  - src/utils/threadStorage.ts   (ThreadStorage)
  - src/services/openaiService.ts (waitForRunCompletion, getLatestAssistantMessage)
  - src/routes (handleSlackEvents, the Slack event dispatcher)

JavaScript strings are modelled as Lean String, Node Buffers as UTF-8 byte
lists, machine integers as Int/Nat (the epoch-second arithmetic involved never
approaches 2^53, so IEEE-double rounding has no effect on any modelled value),
exceptions as Except, and the fire-and-forget / logging side effects as
explicit effect lists.  Node's crypto.createHmac('sha256', ...) is embedded as
a concrete HMAC-SHA-256 over UTF-8 bytes so that verification results can be
evaluated on concrete inputs.
-/

set_option maxRecDepth 100000
set_option maxHeartbeats 4000000

/-! ## SHA-256 and HMAC-SHA-256 over byte lists (model of Node crypto) -/

def M32 : Nat := 4294967296

def rotr32 (n x : Nat) : Nat := ((x >>> n) ||| (x <<< (32 - n))) % M32

def bsig0 (x : Nat) : Nat := (rotr32 2 x) ^^^ (rotr32 13 x) ^^^ (rotr32 22 x)

def bsig1 (x : Nat) : Nat := (rotr32 6 x) ^^^ (rotr32 11 x) ^^^ (rotr32 25 x)

def ssig0 (x : Nat) : Nat := (rotr32 7 x) ^^^ (rotr32 18 x) ^^^ (x >>> 3)

def ssig1 (x : Nat) : Nat := (rotr32 17 x) ^^^ (rotr32 19 x) ^^^ (x >>> 10)

def ch32 (e f g : Nat) : Nat := (e &&& f) ^^^ ((e ^^^ 4294967295) &&& g)

def maj32 (a b c : Nat) : Nat := (a &&& b) ^^^ (a &&& c) ^^^ (b &&& c)

def K256 : List Nat :=
  [1116352408, 1899447441, 3049323471, 3921009573, 961987163, 1508970993,
   2453635748, 2870763221, 3624381080, 310598401, 607225278, 1426881987,
   1925078388, 2162078206, 2614888103, 3248222580, 3835390401, 4022224774,
   264347078, 604807628, 770255983, 1249150122, 1555081692, 1996064986,
   2554220882, 2821834349, 2952996808, 3210313671, 3336571891, 3584528711,
   113926993, 338241895, 666307205, 773529912, 1294757372, 1396182291,
   1695183700, 1986661051, 2177026350, 2456956037, 2730485921, 2820302411,
   3259730800, 3345764771, 3516065817, 3600352804, 4094571909, 275423344,
   430227734, 506948616, 659060556, 883997877, 958139571, 1322822218,
   1537002063, 1747873779, 1955562222, 2024104815, 2227730452, 2361852424,
   2428436474, 2756734187, 3204031479, 3329325298]
def H256 : List Nat :=
  [1779033703, 3144134277, 1013904242, 2773480762,
   1359893119, 2600822924, 528734635, 1541459225]
def padMessage (msg : List Nat) : List Nat :=
  let len := msg.length
  let zeros := (56 + 64 - ((len + 1) % 64)) % 64
  msg ++ [128] ++ List.replicate zeros 0 ++
    (List.range 8).map (fun k => ((len * 8) >>> ((7 - k) * 8)) % 256)

def toBlocksAux : Nat → List Nat → List (List Nat)
  | 0, _ => []
  | _, [] => []
  | fuel + 1, l => l.take 64 :: toBlocksAux fuel (l.drop 64)

def toBlocks (l : List Nat) : List (List Nat) := toBlocksAux l.length l

def toWords : List Nat → List Nat
  | a :: b :: c :: d :: rest => (((a * 256 + b) * 256 + c) * 256 + d) :: toWords rest
  | _ => []

def extendW (w : Array Nat) : Array Nat :=
  (List.range 48).foldl (fun w _ =>
    let s := w.size
    w.push ((ssig1 (w.getD (s - 2) 0) + w.getD (s - 7) 0 +
             ssig0 (w.getD (s - 15) 0) + w.getD (s - 16) 0) % M32)) w

def sha256Compress (hs : List Nat) (block : List Nat) : List Nat :=
  let w := extendW (toWords block).toArray
  let g0 := fun i => hs.getD i 0
  let st := (List.range 64).foldl
    (fun (st : Nat × Nat × Nat × Nat × Nat × Nat × Nat × Nat) i =>
      let (a, b, c, d, e, f, g, h) := st
      let t1 := (h + bsig1 e + ch32 e f g + K256.getD i 0 + w.getD i 0) % M32
      let t2 := (bsig0 a + maj32 a b c) % M32
      ((t1 + t2) % M32, a, b, c, (d + t1) % M32, e, f, g))
    (g0 0, g0 1, g0 2, g0 3, g0 4, g0 5, g0 6, g0 7)
  let (a, b, c, d, e, f, g, h) := st
  [(g0 0 + a) % M32, (g0 1 + b) % M32, (g0 2 + c) % M32, (g0 3 + d) % M32,
   (g0 4 + e) % M32, (g0 5 + f) % M32, (g0 6 + g) % M32, (g0 7 + h) % M32]

def sha256Bytes (msg : List Nat) : List Nat :=
  let final := (toBlocks (padMessage msg)).foldl sha256Compress H256
  (final.map (fun w => [(w >>> 24) % 256, (w >>> 16) % 256, (w >>> 8) % 256, w % 256])).flatten

def hexDigit (n : Nat) : Char := if n < 10 then Char.ofNat (48 + n) else Char.ofNat (87 + n)

def bytesToHex (bs : List Nat) : String :=
  String.mk ((bs.map (fun b => [hexDigit (b / 16), hexDigit (b % 16)])).flatten)

def strBytes (s : String) : List Nat := s.toUTF8.data.toList.map (fun b => b.toNat)

/-- HMAC-SHA-256 with hex output: the model of
crypto.createHmac('sha256', secret).update(msg).digest('hex'). -/
def hmacSha256Hex (secret msg : String) : String :=
  let key0 := strBytes secret
  let key1 := if 64 < key0.length then sha256Bytes key0 else key0
  let key := key1 ++ List.replicate (64 - key1.length) 0
  let ipad := key.map (fun b => b ^^^ 0x36)
  let opad := key.map (fun b => b ^^^ 0x5c)
  bytesToHex (sha256Bytes (opad ++ sha256Bytes (ipad ++ strBytes msg)))

/-! ## JavaScript parseInt semantics

verifySlackSignature calls parseInt(timestamp) with no radix argument,
validateTimestamp calls parseInt(timestamp, 10).  Both skip leading
whitespace and an optional sign, then read the longest leading digit run;
an empty run yields NaN, modelled as none.  The no-radix form additionally
treats a 0x/0X prefix as hexadecimal.  (Rounding of digit strings beyond
2^53 and exotic Unicode whitespace are not modelled; no claim depends on
either.) -/

def jsWhitespace (c : Char) : Bool :=
  c == ' ' || c == '\t' || c == '\n' || c == '\r' || c == '\x0c'

def isDecDigit (c : Char) : Bool := '0' ≤ c && c ≤ '9'

def isHexDigitChar (c : Char) : Bool :=
  isDecDigit c || ('a' ≤ c && c ≤ 'f') || ('A' ≤ c && c ≤ 'F')

def hexDigitVal (c : Char) : Nat :=
  if isDecDigit c then c.toNat - 48
  else if 'a' ≤ c && c ≤ 'f' then c.toNat - 87
  else c.toNat - 55

def digitsToNat (base : Nat) (ds : List Char) : Nat :=
  ds.foldl (fun n c => n * base + hexDigitVal c) 0

def jsParseIntFrom (base : Nat) (pred : Char → Bool) (sign : Int) (cs : List Char) :
    Option Int :=
  let ds := cs.takeWhile pred
  if ds.isEmpty then none else some (sign * (digitsToNat base ds : Nat))

def jsParseIntSign : List Char → Int × List Char
  | '-' :: rest => (-1, rest)
  | '+' :: rest => (1, rest)
  | cs => (1, cs)

/-- parseInt(s) with no radix argument. -/
def jsParseInt (s : String) : Option Int :=
  let cs := s.data.dropWhile jsWhitespace
  let p := jsParseIntSign cs
  match p.2 with
  | '0' :: c :: rest =>
    if c == 'x' || c == 'X' then jsParseIntFrom 16 isHexDigitChar p.1 rest
    else jsParseIntFrom 10 isDecDigit p.1 p.2
  | _ => jsParseIntFrom 10 isDecDigit p.1 p.2

/-- parseInt(s, 10). -/
def jsParseInt10 (s : String) : Option Int :=
  let cs := s.data.dropWhile jsWhitespace
  let p := jsParseIntSign cs
  jsParseIntFrom 10 isDecDigit p.1 p.2

/-! ## src/utils/slackVerifier.ts -/

/-- Model of crypto.timingSafeEqual on the UTF-8 buffers of two strings:
it throws ERR_CRYPTO_TIMING_SAFE_EQUAL_LENGTH when the byte lengths differ
and otherwise compares the contents (its constant-time execution is a timing
property with no functional content).  Equal byte lengths make string
equality and byte equality coincide. -/
def timingSafeEqualStr (a b : String) : Except String Bool :=
  if a.utf8ByteSize = b.utf8ByteSize then Except.ok (decide (a = b))
  else Except.error "ERR_CRYPTO_TIMING_SAFE_EQUAL_LENGTH"

/-- Body of the try block of verifySlackSignature (slackVerifier.ts lines
17-36).  `now` stands for Math.floor(Date.now() / 1000).  parseInt(timestamp)
yielding NaN makes the comparison NaN < fiveMinutesAgo evaluate to false in
JavaScript, so an unparseable timestamp does NOT take the early return: that
is modelled by the none branch of the match. -/
def verifyAttempt (now : Int) (body sig ts secret : String) : Except String Bool :=
  let fiveMinutesAgo := now - 60 * 5
  let stale := match jsParseInt ts with
    | some t => decide (t < fiveMinutesAgo)
    | none => false
  if stale then Except.ok false
  else
    let baseString := "v0:" ++ ts ++ ":" ++ body
    let expectedSignature := "v0=" ++ hmacSha256Hex secret baseString
    timingSafeEqualStr expectedSignature sig

/-- verifySlackSignature (slackVerifier.ts lines 11-41): the try/catch
converts any exception thrown by the body into the return value false. -/
def verifySlackSignature (now : Int) (body sig ts secret : String) : Bool :=
  match verifyAttempt now body sig ts secret with
  | Except.ok b => b
  | Except.error _ => false

/-- validateTimestamp (slackVerifier.ts lines 48-54):
Math.abs(currentTime - requestTime) < fiveMinutes, where a NaN requestTime
makes the comparison false (the none branch). -/
def validateTimestamp (now : Int) (ts : String) : Bool :=
  match jsParseInt10 ts with
  | some requestTime => decide ((now - requestTime).natAbs < 5 * 60)
  | none => false

/-! ## src/utils/threadStorage.ts

The in-memory JS Map is modelled as an insertion-ordered association list
with distinct keys; Map.set overwrites in place, Map.delete removes the
entry.  The backing file is abstracted to whether it exists and whether
JSON.parse succeeds on it, and fs.writeFileSync to a flag saying whether the
write succeeds; console logging and write attempts are recorded as effects. -/

inductive StorageFile
  | missing
  | corrupt
  | stored (entries : List (String × String))
deriving DecidableEq

inductive StorageEffect
  | fileWrite (entries : List (String × String))
  | logError (msg : String)
deriving DecidableEq

structure ThreadStorage where
  data : List (String × String)
deriving DecidableEq

def mapSet : List (String × String) → String → String → List (String × String)
  | [], k, v => [(k, v)]
  | (k0, v0) :: rest, k, v =>
    if k0 = k then (k, v) :: rest else (k0, v0) :: mapSet rest k v

def mapDelete : List (String × String) → String → List (String × String)
  | [], _ => []
  | (k0, v0) :: rest, k =>
    if k0 = k then rest else (k0, v0) :: mapDelete rest k

/-- saveToFile (threadStorage.ts lines 528-537): fs.writeFileSync either
succeeds (recorded as a fileWrite of the whole mapping) or throws; the throw
is caught and only logged, so the function never raises. -/
def ThreadStorage.saveToFile (entries : List (String × String)) (writeOk : Bool) :
    List StorageEffect :=
  if writeOk then [StorageEffect.fileWrite entries]
  else [StorageEffect.logError "Error saving thread storage"]

/-- The constructor together with loadFromFile (threadStorage.ts lines
491-523): a stored file is parsed into the mapping; a missing file yields an
empty mapping persisted to a fresh file; a corrupt file (JSON.parse throws)
is caught, logged, reset to an empty mapping and immediately persisted. -/
def ThreadStorage.loadFromFile (file : StorageFile) (writeOk : Bool) :
    ThreadStorage × List StorageEffect :=
  match file with
  | StorageFile.stored entries => (⟨entries⟩, [])
  | StorageFile.missing => (⟨[]⟩, ThreadStorage.saveToFile [] writeOk)
  | StorageFile.corrupt =>
    (⟨[]⟩, StorageEffect.logError "Error loading thread storage" ::
           ThreadStorage.saveToFile [] writeOk)

def ThreadStorage.get (st : ThreadStorage) (userId : String) : Option String :=
  (st.data.find? (fun p => p.1 == userId)).map (fun p => p.2)

def ThreadStorage.set (st : ThreadStorage) (userId threadId : String) (writeOk : Bool) :
    ThreadStorage × List StorageEffect :=
  let d := mapSet st.data userId threadId
  (⟨d⟩, ThreadStorage.saveToFile d writeOk)

def ThreadStorage.has (st : ThreadStorage) (userId : String) : Bool :=
  st.data.any (fun p => p.1 == userId)

def ThreadStorage.delete (st : ThreadStorage) (userId : String) (writeOk : Bool) :
    ThreadStorage × List StorageEffect :=
  let d := mapDelete st.data userId
  (⟨d⟩, ThreadStorage.saveToFile d writeOk)

def ThreadStorage.clear (_st : ThreadStorage) (writeOk : Bool) :
    ThreadStorage × List StorageEffect :=
  (⟨[]⟩, ThreadStorage.saveToFile [] writeOk)

def ThreadStorage.size (st : ThreadStorage) : Nat := st.data.length

def ThreadStorage.getAll (st : ThreadStorage) : List (String × String) := st.data

/-! ## src/services/openaiService.ts -/

inductive RunStatus
  | queued
  | inProgress
  | requiresAction
  | cancelling
  | cancelled
  | failed
  | completed
  | expired
deriving DecidableEq

/-- The Run object, restricted to the fields the embedded logic reads
(id and status; created_at, thread_id, assistant_id and the rest are carried
opaquely by the service and never inspected by waitForRunCompletion). -/
structure Run where
  id : String
  status : RunStatus
deriving DecidableEq

inductive PollEffect
  | sleep
  | fetch
deriving DecidableEq

/-- The run.status === 'failed' || 'cancelled' || 'expired' test of
waitForRunCompletion. -/
def isTerminalFailure : RunStatus → Bool
  | RunStatus.failed => true
  | RunStatus.cancelled => true
  | RunStatus.expired => true
  | _ => false

/-- waitForRunCompletion (openaiService.ts lines 186-205).  The successive
results of this.getRunStatus are scripted by `polls`; the do/while loop is
unrolled over that script.  Each iteration first awaits a 1-second sleep and
then fetches the status (recorded in the effect trace), throws when the
status is failed/cancelled/expired, and keeps looping while it is not
completed.  When the script runs out before a decision the real loop would
still be polling, modelled as none. -/
def waitForRunCompletion : List Run → Option (Except RunStatus Run) × List PollEffect
  | [] => (none, [PollEffect.sleep])
  | r :: rest =>
    if isTerminalFailure r.status then
      (some (Except.error r.status), [PollEffect.sleep, PollEffect.fetch])
    else if r.status = RunStatus.completed then
      (some (Except.ok r), [PollEffect.sleep, PollEffect.fetch])
    else
      let p := waitForRunCompletion rest
      (p.1, PollEffect.sleep :: PollEffect.fetch :: p.2)

def countFetches : List PollEffect → Nat
  | [] => 0
  | PollEffect.fetch :: rest => countFetches rest + 1
  | _ :: rest => countFetches rest

/-- One content block of a thread message, as in the Message interface of
openaiService.ts: a type tag and a text payload whose value is read only
after the type has been checked to be 'text' (the annotations array is never
read and is omitted). -/
structure ContentBlock where
  type : String
  textValue : String
deriving DecidableEq

structure ThreadMessage where
  role : String
  content : List ContentBlock
deriving DecidableEq

def isAssistantRole (m : ThreadMessage) : Bool := m.role == "assistant"

def isTextBlock (c : ContentBlock) : Bool := c.type == "text"

/-- Body of the try block of getLatestAssistantMessage (openaiService.ts
lines 236-261), given the message list returned by getThreadMessages (the
API returns messages most-recent-first, so find? picks the latest). -/
def findLatestAssistant (messages : List ThreadMessage) : Except String String :=
  match messages.find? isAssistantRole with
  | none => Except.error "No assistant message found in thread"
  | some m =>
    match m.content.find? isTextBlock with
    | none => Except.error "No text content found in assistant message"
    | some c => Except.ok c.textValue

/-- getLatestAssistantMessage: the catch block logs and rethrows a single
Error('Failed to get assistant response') for either internal failure. -/
def getLatestAssistantMessage (messages : List ThreadMessage) : Except String String :=
  match findLatestAssistant messages with
  | Except.ok v => Except.ok v
  | Except.error _ => Except.error "Failed to get assistant response"

/-! ## The Slack event dispatcher (handleSlackEvents) -/

/-- The nested Slack event, restricted to the fields the handler reads.
app_id and user are optional on the wire (absent models undefined); hidden
absent is modelled as false, matching !event.hidden. The ts/event_ts
timestamps are never read by the handler and are omitted. -/
structure SlackEvent where
  app_id : Option String
  type : String
  user : Option String
  text : String
  channel : String
  hidden : Bool
deriving DecidableEq

/-- The parsed request body: the discriminator, the handshake challenge and
the nested event (each absent when the JSON lacks the field). -/
structure SlackBody where
  type : Option String
  challenge : Option String
  event : Option SlackEvent
deriving DecidableEq

inductive RespBody
  | errMsg (msg : String)
  | okTrue
  | challengeEcho (c : String)
deriving DecidableEq

structure HttpResponse where
  status : Nat
  body : RespBody
deriving DecidableEq

inductive DispatchEffect
  | sendTyping (channel : String)
  | processMessage (ev : SlackEvent)
deriving DecidableEq

/-- The dispatcher inputs: the two Slack headers, the two environment
variables it reads, the raw request body, the current epoch second, and the
parsed body. -/
structure DispatchInput where
  signature : Option String
  timestamp : Option String
  signingSecret : Option String
  selfAppId : Option String
  rawBody : String
  now : Int
  body : SlackBody
deriving DecidableEq

/-- JavaScript truthiness of an optional string: undefined and the empty
string are falsy. -/
def truthy : Option String → Bool
  | none => false
  | some s => !(s == "")

/-- Model of String.prototype.startsWith: the prefix test on the character
sequences. -/
def strStartsWith (s pre : String) : Bool := pre.data.isPrefixOf s.data

/-- The event.type === 'message' && event.user && !event.hidden &&
event.channel.startsWith('D') filter. -/
def isDmUserMessage (ev : SlackEvent) : Bool :=
  ev.type == "message" && truthy ev.user && !ev.hidden && strStartsWith ev.channel "D"

/-- The post-verification part of handleSlackEvents: handshake precedence,
event_callback filtering with the self-loop guard, and the final
acknowledgments.  Effects record the typing-indicator send and the detached
handleDirectMessage continuation, which happen only on the processing path.
A missing nested event on an event_callback makes event.type throw; the
outer catch turns that into the 500 response. -/
def dispatchVerified (inp : DispatchInput) : HttpResponse × List DispatchEffect :=
  if inp.body.type = some "url_verification" then
    match inp.body.challenge with
    | some c =>
      if c = "" then (⟨400, RespBody.errMsg "Invalid challenge"⟩, [])
      else (⟨200, RespBody.challengeEcho c⟩, [])
    | none => (⟨400, RespBody.errMsg "Invalid challenge"⟩, [])
  else if inp.body.type = some "event_callback" then
    match inp.body.event with
    | none => (⟨500, RespBody.errMsg "Internal server error"⟩, [])
    | some ev =>
      if isDmUserMessage ev then
        if ev.app_id = inp.selfAppId then (⟨200, RespBody.okTrue⟩, [])
        else (⟨200, RespBody.okTrue⟩,
              [DispatchEffect.sendTyping ev.channel, DispatchEffect.processMessage ev])
      else (⟨200, RespBody.okTrue⟩, [])
  else (⟨200, RespBody.okTrue⟩, [])

/-- handleSlackEvents: the verification gate (missing signature header,
timestamp header or signing secret ⇒ 400; stale timestamp ⇒ 400; bad
signature ⇒ 401, in that order) followed by classification. -/
def handleSlackEvents (inp : DispatchInput) : HttpResponse × List DispatchEffect :=
  match inp.signature, inp.timestamp, inp.signingSecret with
  | some sig, some ts, some sec =>
    if sig == "" || ts == "" || sec == "" then
      (⟨400, RespBody.errMsg "Missing required headers"⟩, [])
    else if !validateTimestamp inp.now ts then
      (⟨400, RespBody.errMsg "Request timestamp is too old"⟩, [])
    else if !verifySlackSignature inp.now inp.rawBody sig ts sec then
      (⟨401, RespBody.errMsg "Invalid signature"⟩, [])
    else dispatchVerified inp
  | _, _, _ => (⟨400, RespBody.errMsg "Missing required headers"⟩, [])

/-! ## Helper lemmas -/

theorem mapSet_find (l : List (String × String)) (k v : String) :
    ((mapSet l k v).find? (fun p => p.1 == k)).map (fun p => p.2) = some v := by
  induction l with
  | nil => simp [mapSet, List.find?]
  | cons p rest ih =>
    obtain ⟨k0, v0⟩ := p
    by_cases hk : k0 = k
    · simp [mapSet, hk, List.find?]
    · simp only [mapSet, if_neg hk]
      rw [List.find?_cons_of_neg]
      · exact ih
      · simp [hk]

theorem waitFor_cons_nonterminal (p : Run) (polls : List Run)
    (h : p.status = RunStatus.queued ∨ p.status = RunStatus.inProgress ∨
         p.status = RunStatus.requiresAction) :
    waitForRunCompletion (p :: polls) =
      ((waitForRunCompletion polls).1,
        PollEffect.sleep :: PollEffect.fetch :: (waitForRunCompletion polls).2) := by
  rcases h with h | h | h <;> simp [waitForRunCompletion, isTerminalFailure, h]

theorem waitFor_append_nonterminal (pre polls : List Run)
    (hpre : ∀ p ∈ pre, p.status = RunStatus.queued ∨ p.status = RunStatus.inProgress ∨
            p.status = RunStatus.requiresAction) :
    (waitForRunCompletion (pre ++ polls)).1 = (waitForRunCompletion polls).1 ∧
    countFetches (waitForRunCompletion (pre ++ polls)).2 =
      pre.length + countFetches (waitForRunCompletion polls).2 := by
  induction pre with
  | nil => simp
  | cons p pre ih =>
    have hp := hpre p (List.mem_cons_self p pre)
    have ih2 := ih (fun q hq => hpre q (List.mem_cons_of_mem p hq))
    rw [List.cons_append, waitFor_cons_nonterminal p (pre ++ polls) hp]
    refine ⟨ih2.1, ?_⟩
    simp only [countFetches, ih2.2, List.length_cons]
    omega

/-! ## Claim theorems -/

/-- Claim C2, counterexample: the claim says a timestamp exactly 300 seconds
in the past is fresh (inclusive window), but validateTimestamp at now = 300
with timestamp string "0" returns false even though |now - t| ≤ 300. -/
theorem validateTimestamp_boundary300_cex :
    ((300 : Int) - 0).natAbs ≤ 300 ∧ validateTimestamp 300 "0" = false := by
  constructor
  · decide
  · decide

/-- Claim C2 (amended): the freshness window is strict, not inclusive: for a
timestamp string parsing to t, validateTimestamp returns true exactly when
|now - t| < 300 seconds, so |now - t| = 300 is already stale. -/
theorem validateTimestamp_strict_window (now t : Int) (ts : String)
    (h : jsParseInt10 ts = some t) :
    validateTimestamp now ts = true ↔ (now - t).natAbs < 5 * 60 := by
  simp [validateTimestamp, h]

theorem validateTimestamp_strict_window_witness :
    jsParseInt10 "299" = some 299 ∧
      (validateTimestamp 0 "299" = true ↔ ((0 : Int) - 299).natAbs < 5 * 60) :=
  ⟨by decide, validateTimestamp_strict_window 0 299 "299" (by decide)⟩

/-- Claim C8: constructing the Thread Store over a corrupt backing file (one
whose JSON.parse throws) is total (loadFromFile is a function, hence never
raises), yields an empty in-memory mapping with size 0 whether or not the
subsequent persist succeeds, and immediately attempts to persist the empty
mapping back to the file. -/
theorem threadStorage_corrupt_selfheal :
    (ThreadStorage.loadFromFile StorageFile.corrupt true).1.data = [] ∧
    (ThreadStorage.loadFromFile StorageFile.corrupt false).1.data = [] ∧
    (ThreadStorage.loadFromFile StorageFile.corrupt true).1.size = 0 ∧
    (ThreadStorage.loadFromFile StorageFile.corrupt false).1.size = 0 ∧
    (ThreadStorage.loadFromFile StorageFile.corrupt true).2 =
      [StorageEffect.logError "Error loading thread storage",
       StorageEffect.fileWrite []] := by
  decide

/-- Claim C9: set/delete/clear are total functions (never raise), the
in-memory mapping reflects the mutation whether or not the persist succeeds,
a failed persist produces only a log entry (no file write, no error
propagated to the caller), and after set the mutated value is readable. -/
theorem threadStorage_mutations_total (st : ThreadStorage) (u t : String) (wOk : Bool) :
    (st.set u t wOk).1.data = mapSet st.data u t ∧
    (st.set u t wOk).1.get u = some t ∧
    (st.delete u wOk).1.data = mapDelete st.data u ∧
    (st.clear wOk).1.data = [] ∧
    (st.set u t false).2 = [StorageEffect.logError "Error saving thread storage"] ∧
    (st.delete u false).2 = [StorageEffect.logError "Error saving thread storage"] ∧
    (st.clear false).2 = [StorageEffect.logError "Error saving thread storage"] ∧
    (st.set u t true).2 = [StorageEffect.fileWrite (mapSet st.data u t)] :=
  ⟨rfl, mapSet_find st.data u t, rfl, rfl, rfl, rfl, rfl, rfl⟩

/-- Claim C10: waitForRunCompletion never consults any state its caller
holds: the effect trace of every invocation begins with a sleep, and even
when the very first fetched status is already completed the function has
performed exactly one sleep and one fetch before returning. -/
theorem waitForRunCompletion_polls_before_deciding :
    (∀ polls : List Run, (waitForRunCompletion polls).2.head? = some PollEffect.sleep) ∧
    (∀ (r : Run) (rest : List Run), r.status = RunStatus.completed →
      waitForRunCompletion (r :: rest) =
        (some (Except.ok r), [PollEffect.sleep, PollEffect.fetch])) := by
  constructor
  · intro polls
    cases polls with
    | nil => rfl
    | cons r rest =>
      simp only [waitForRunCompletion]
      split
      · rfl
      · split
        · rfl
        · rfl
  · intro r rest hc
    simp [waitForRunCompletion, hc,
      show isTerminalFailure RunStatus.completed = false from rfl]

theorem waitForRunCompletion_polls_before_deciding_witness :
    waitForRunCompletion [⟨"run_1", RunStatus.completed⟩] =
      (some (Except.ok ⟨"run_1", RunStatus.completed⟩),
       [PollEffect.sleep, PollEffect.fetch]) :=
  waitForRunCompletion_polls_before_deciding.2 ⟨"run_1", RunStatus.completed⟩ [] rfl

/-- Claim C4: over any scripted sequence of getRunStatus results consisting
of non-terminal statuses followed by a decisive one, waitForRunCompletion
returns the run exactly when the first decisive status is completed, having
fetched once per preceding non-terminal status plus once for the decisive
fetch; it raises the terminal status when that status is
failed/cancelled/expired; and a queued/in_progress/requires_action status
always causes exactly one more poll. -/
theorem waitForRunCompletion_terminal_spec (pre : List Run) (r : Run) (rest : List Run)
    (hpre : ∀ p ∈ pre, p.status = RunStatus.queued ∨ p.status = RunStatus.inProgress ∨
            p.status = RunStatus.requiresAction) :
    (r.status = RunStatus.completed →
      (waitForRunCompletion (pre ++ r :: rest)).1 = some (Except.ok r) ∧
      countFetches (waitForRunCompletion (pre ++ r :: rest)).2 = pre.length + 1) ∧
    ((r.status = RunStatus.failed ∨ r.status = RunStatus.cancelled ∨
      r.status = RunStatus.expired) →
      (waitForRunCompletion (pre ++ r :: rest)).1 = some (Except.error r.status) ∧
      countFetches (waitForRunCompletion (pre ++ r :: rest)).2 = pre.length + 1) ∧
    (∀ (p : Run) (polls : List Run),
      (p.status = RunStatus.queued ∨ p.status = RunStatus.inProgress ∨
       p.status = RunStatus.requiresAction) →
      (waitForRunCompletion (p :: polls)).1 = (waitForRunCompletion polls).1 ∧
      countFetches (waitForRunCompletion (p :: polls)).2 =
        countFetches (waitForRunCompletion polls).2 + 1) := by
  have happ := waitFor_append_nonterminal pre (r :: rest) hpre
  refine ⟨?_, ?_, ?_⟩
  · intro hc
    have hhead : waitForRunCompletion (r :: rest) =
        (some (Except.ok r), [PollEffect.sleep, PollEffect.fetch]) := by
      simp [waitForRunCompletion, hc,
        show isTerminalFailure RunStatus.completed = false from rfl]
    refine ⟨?_, ?_⟩
    · rw [happ.1, hhead]
    · rw [happ.2, hhead]
      simp [countFetches]
  · intro hf
    have h1 : isTerminalFailure r.status = true := by
      rcases hf with h | h | h <;> rw [h] <;> rfl
    have hhead : waitForRunCompletion (r :: rest) =
        (some (Except.error r.status), [PollEffect.sleep, PollEffect.fetch]) := by
      simp [waitForRunCompletion, h1]
    refine ⟨?_, ?_⟩
    · rw [happ.1, hhead]
    · rw [happ.2, hhead]
      simp [countFetches]
  · intro p polls hp
    rw [waitFor_cons_nonterminal p polls hp]
    exact ⟨rfl, by simp [countFetches]⟩

theorem waitForRunCompletion_terminal_spec_witness :
    ((waitForRunCompletion
        [⟨"r", RunStatus.queued⟩, ⟨"r", RunStatus.inProgress⟩,
         ⟨"r", RunStatus.completed⟩]).1 = some (Except.ok ⟨"r", RunStatus.completed⟩) ∧
     countFetches (waitForRunCompletion
        [⟨"r", RunStatus.queued⟩, ⟨"r", RunStatus.inProgress⟩,
         ⟨"r", RunStatus.completed⟩]).2 = 3) ∧
    (waitForRunCompletion [⟨"r", RunStatus.queued⟩, ⟨"r2", RunStatus.failed⟩]).1 =
      some (Except.error RunStatus.failed) := by
  constructor
  · have h := (waitForRunCompletion_terminal_spec
      [⟨"r", RunStatus.queued⟩, ⟨"r", RunStatus.inProgress⟩]
      ⟨"r", RunStatus.completed⟩ [] (by decide)).1 rfl
    simpa using h
  · have h := ((waitForRunCompletion_terminal_spec
      [⟨"r", RunStatus.queued⟩] ⟨"r2", RunStatus.failed⟩ [] (by decide)).2.1
      (Or.inl rfl)).1
    simpa using h

/-- Claim C6: getLatestAssistantMessage returns the value of the first
text-typed content block of the most recent assistant-authored message (the
fetched list is most-recent-first, so the first match of find?), and raises
exactly when no assistant-authored message exists or the found assistant
message has no text-typed content block. -/
theorem getLatestAssistantMessage_spec (messages : List ThreadMessage) :
    ((∀ m ∈ messages, m.role ≠ "assistant") →
      getLatestAssistantMessage messages =
        Except.error "Failed to get assistant response") ∧
    (∀ m, messages.find? isAssistantRole = some m →
      ((∀ c ∈ m.content, c.type ≠ "text") →
        getLatestAssistantMessage messages =
          Except.error "Failed to get assistant response") ∧
      (∀ c, m.content.find? isTextBlock = some c →
        getLatestAssistantMessage messages = Except.ok c.textValue)) ∧
    ((∃ v, getLatestAssistantMessage messages = Except.ok v) ↔
      (∃ m, messages.find? isAssistantRole = some m ∧
            ∃ c, m.content.find? isTextBlock = some c)) := by
  refine ⟨?_, ?_, ?_⟩
  · intro h
    have hn : messages.find? isAssistantRole = none :=
      List.find?_eq_none.mpr (fun m hm => by simp [isAssistantRole, h m hm])
    simp [getLatestAssistantMessage, findLatestAssistant, hn]
  · intro m hm
    refine ⟨?_, ?_⟩
    · intro h
      have hn : m.content.find? isTextBlock = none :=
        List.find?_eq_none.mpr (fun c hc => by simp [isTextBlock, h c hc])
      simp [getLatestAssistantMessage, findLatestAssistant, hm, hn]
    · intro c hc
      simp [getLatestAssistantMessage, findLatestAssistant, hm, hc]
  · constructor
    · rintro ⟨v, hv⟩
      rcases hfa : messages.find? isAssistantRole with _ | m
      · simp [getLatestAssistantMessage, findLatestAssistant, hfa] at hv
      · rcases hfc : m.content.find? isTextBlock with _ | c
        · simp [getLatestAssistantMessage, findLatestAssistant, hfa, hfc] at hv
        · exact ⟨m, rfl, c, hfc⟩
    · rintro ⟨m, hm, c, hc⟩
      exact ⟨c.textValue,
        by simp [getLatestAssistantMessage, findLatestAssistant, hm, hc]⟩

theorem getLatestAssistantMessage_spec_witness :
    getLatestAssistantMessage
      [⟨"user", [⟨"text", "Hello"⟩]⟩, ⟨"assistant", [⟨"text", "Hi there!"⟩]⟩] =
      Except.ok "Hi there!" :=
  ((getLatestAssistantMessage_spec
      [⟨"user", [⟨"text", "Hello"⟩]⟩, ⟨"assistant", [⟨"text", "Hi there!"⟩]⟩]).2.1
    ⟨"assistant", [⟨"text", "Hi there!"⟩]⟩ (by decide)).2
    ⟨"text", "Hi there!"⟩ (by decide)

/-- Claim C3: the dispatcher rejects with 400 when the signature header, the
timestamp header or the configured signing secret is absent (or empty, which
JavaScript treats the same), rejects with 400 when the timestamp fails the
freshness check, and rejects with 401 when the signature does not verify —
in that order (each later check presupposes the earlier ones passed), with
no classification and no side effects (empty effect list) on any of the
three rejection paths. -/
theorem handleSlackEvents_verification_order (inp : DispatchInput) :
    ((truthy inp.signature = false ∨ truthy inp.timestamp = false ∨
      truthy inp.signingSecret = false) →
      handleSlackEvents inp = (⟨400, RespBody.errMsg "Missing required headers"⟩, [])) ∧
    (∀ sig ts sec, inp.signature = some sig → inp.timestamp = some ts →
      inp.signingSecret = some sec → sig ≠ "" → ts ≠ "" → sec ≠ "" →
      (validateTimestamp inp.now ts = false →
        handleSlackEvents inp =
          (⟨400, RespBody.errMsg "Request timestamp is too old"⟩, [])) ∧
      (validateTimestamp inp.now ts = true →
       verifySlackSignature inp.now inp.rawBody sig ts sec = false →
        handleSlackEvents inp = (⟨401, RespBody.errMsg "Invalid signature"⟩, []))) := by
  constructor
  · intro h
    rcases hsig : inp.signature with _ | sig
    · simp [handleSlackEvents, hsig]
    · rcases hts : inp.timestamp with _ | ts
      · simp [handleSlackEvents, hsig, hts]
      · rcases hsec : inp.signingSecret with _ | sec
        · simp [handleSlackEvents, hsig, hts, hsec]
        · have hemp : sig = "" ∨ ts = "" ∨ sec = "" := by
            rcases h with h | h | h
            · rw [hsig] at h; simp [truthy] at h; exact Or.inl h
            · rw [hts] at h; simp [truthy] at h; exact Or.inr (Or.inl h)
            · rw [hsec] at h; simp [truthy] at h; exact Or.inr (Or.inr h)
          rcases hemp with he | he | he <;>
            simp [handleSlackEvents, hsig, hts, hsec, he]
  · intro sig ts sec hsig hts hsec hne1 hne2 hne3
    constructor
    · intro hstale
      simp [handleSlackEvents, hsig, hts, hsec, hne1, hne2, hne3, hstale]
    · intro hfresh hver
      simp [handleSlackEvents, hsig, hts, hsec, hne1, hne2, hne3, hfresh, hver]

/-- Claim C5: on a fully verified event_callback payload, if the nested
event is not a non-hidden message with a user on a DM-marked channel, or its
originating app_id equals the configured self application id, the dispatcher
responds 200 ok:true with an empty effect list: no typing indicator, no
detached processing, hence no Conversation Client call, no thread-store
mutation and no message append. -/
theorem handleSlackEvents_noop_ack (inp : DispatchInput) (sig ts sec : String)
    (ev : SlackEvent)
    (hsig : inp.signature = some sig) (hne1 : sig ≠ "")
    (hts : inp.timestamp = some ts) (hne2 : ts ≠ "")
    (hsec : inp.signingSecret = some sec) (hne3 : sec ≠ "")
    (hfresh : validateTimestamp inp.now ts = true)
    (hver : verifySlackSignature inp.now inp.rawBody sig ts sec = true)
    (hcb : inp.body.type = some "event_callback")
    (hev : inp.body.event = some ev)
    (hnoop : isDmUserMessage ev = false ∨ ev.app_id = inp.selfAppId) :
    handleSlackEvents inp = (⟨200, RespBody.okTrue⟩, []) := by
  have hneq : inp.body.type ≠ some "url_verification" := by rw [hcb]; simp
  rcases hnoop with hn | hn
  · simp [handleSlackEvents, dispatchVerified, hsig, hts, hsec, hne1, hne2, hne3,
      hfresh, hver, hcb, hev, hneq, hn]
  · cases hdm : isDmUserMessage ev
    · simp [handleSlackEvents, dispatchVerified, hsig, hts, hsec, hne1, hne2, hne3,
        hfresh, hver, hcb, hev, hneq, hdm]
    · simp [handleSlackEvents, dispatchVerified, hsig, hts, hsec, hne1, hne2, hne3,
        hfresh, hver, hcb, hev, hneq, hdm, hn]

/-- Claim C1, counterexample: "abc" does not parse as epoch seconds, yet
verifySlackSignature does not fail closed: because parseInt yields NaN and
NaN < fiveMinutesAgo is false, the replay gate is skipped, and with the
correct HMAC over the literal string "v0:abc:b" the function returns true. -/
theorem verifySlackSignature_unparseable_accepts_cex :
    jsParseInt "abc" = none ∧
    verifySlackSignature 1000 "b"
      "v0=964b77d5ac240b638ffcd491b66742d4e8593690d2f71d4b43a9247f0d04bdb3"
      "abc" "s" = true := by
  constructor
  · decide
  · decide

/-- Claim C1 (amended): a timestamp string that does not parse as an integer
does not crash verification, but neither does it fail closed: the staleness
check is silently skipped (NaN comparison) and the result is exactly the
signature comparison — true when the presented signature equals the expected
HMAC signature over the literal timestamp string, false otherwise. -/
theorem verifySlackSignature_unparseable_skips_staleness
    (now : Int) (body sig ts secret : String) (h : jsParseInt ts = none) :
    verifySlackSignature now body sig ts secret = true ↔
      sig = "v0=" ++ hmacSha256Hex secret ("v0:" ++ ts ++ ":" ++ body) := by
  by_cases hsz : ("v0=" ++ hmacSha256Hex secret ("v0:" ++ ts ++ ":" ++ body)).utf8ByteSize
      = sig.utf8ByteSize
  · simp [verifySlackSignature, verifyAttempt, timingSafeEqualStr, h, hsz]
    exact eq_comm
  · simp [verifySlackSignature, verifyAttempt, timingSafeEqualStr, h, hsz]
    intro hEq
    exact hsz (by rw [hEq])

theorem verifySlackSignature_unparseable_skips_staleness_witness :
    jsParseInt "abc" = none ∧
    (verifySlackSignature 1000 "b" "v0=x" "abc" "s" = true ↔
      "v0=x" = "v0=" ++ hmacSha256Hex "s" ("v0:" ++ "abc" ++ ":" ++ "b")) :=
  ⟨by decide,
   verifySlackSignature_unparseable_skips_staleness 1000 "b" "v0=x" "abc" "s" (by decide)⟩

/-- Claim C7: verifySlackSignature is a total function (it always returns a
Bool), every exception of the try-block body (verifyAttempt) is converted to
the return value false, and in particular a presented signature whose UTF-8
byte length differs from the expected signature's (which makes
crypto.timingSafeEqual throw) yields false rather than a crash. -/
theorem verifySlackSignature_total_catch (now : Int) (body sig ts secret : String) :
    ((∃ e, verifyAttempt now body sig ts secret = Except.error e) →
      verifySlackSignature now body sig ts secret = false) ∧
    (sig.utf8ByteSize ≠
        ("v0=" ++ hmacSha256Hex secret ("v0:" ++ ts ++ ":" ++ body)).utf8ByteSize →
      verifySlackSignature now body sig ts secret = false) := by
  constructor
  · rintro ⟨e, he⟩
    unfold verifySlackSignature
    rw [he]
  · intro hsz
    have hne : ¬ ("v0=" ++ hmacSha256Hex secret ("v0:" ++ ts ++ ":" ++ body)).utf8ByteSize
        = sig.utf8ByteSize := fun hh => hsz hh.symm
    rcases hp : jsParseInt ts with _ | t
    · simp [verifySlackSignature, verifyAttempt, timingSafeEqualStr, hp, hne]
    · by_cases hst : t < now - 300
      · simp [verifySlackSignature, verifyAttempt, hp, hst]
      · simp [verifySlackSignature, verifyAttempt, timingSafeEqualStr, hp, hst, hne]

theorem verifySlackSignature_total_catch_witness :
    verifySlackSignature 0 "b" "x" "9" "s" = false ∧
    verifySlackSignature 0 "b" "xy" "9" "s" = false :=
  ⟨(verifySlackSignature_total_catch 0 "b" "x" "9" "s").1
      ⟨"ERR_CRYPTO_TIMING_SAFE_EQUAL_LENGTH", rfl⟩,
   (verifySlackSignature_total_catch 0 "b" "xy" "9" "s").2 (by decide)⟩

theorem handleSlackEvents_verification_order_witness :
    handleSlackEvents ⟨none, some "100", some "s", some "A", "b", 100,
        ⟨none, none, none⟩⟩ =
      (⟨400, RespBody.errMsg "Missing required headers"⟩, []) ∧
    handleSlackEvents ⟨some "v0=wrong", some "100", some "s", some "A", "b", 100000,
        ⟨none, none, none⟩⟩ =
      (⟨400, RespBody.errMsg "Request timestamp is too old"⟩, []) ∧
    handleSlackEvents ⟨some "v0=wrong", some "100", some "s", some "A", "b", 100,
        ⟨none, none, none⟩⟩ =
      (⟨401, RespBody.errMsg "Invalid signature"⟩, []) := by
  refine ⟨?_, ?_, ?_⟩
  · exact (handleSlackEvents_verification_order _).1 (Or.inl rfl)
  · exact ((handleSlackEvents_verification_order _).2 "v0=wrong" "100" "s" rfl rfl rfl
      (by decide) (by decide) (by decide)).1 (by decide)
  · exact ((handleSlackEvents_verification_order _).2 "v0=wrong" "100" "s" rfl rfl rfl
      (by decide) (by decide) (by decide)).2 (by decide) (by decide)

theorem handleSlackEvents_noop_ack_witness :
    handleSlackEvents
      ⟨some "v0=bda362b5e6e07ca4e1dc0fdb4405610e931ff183b2af4100c7b42c2760689b2a",
       some "100", some "s", some "SELF", "b", 100,
       ⟨some "event_callback", none,
        some ⟨some "OTHER", "message", some "U1", "hi", "C123", false⟩⟩⟩ =
      (⟨200, RespBody.okTrue⟩, []) ∧
    handleSlackEvents
      ⟨some "v0=bda362b5e6e07ca4e1dc0fdb4405610e931ff183b2af4100c7b42c2760689b2a",
       some "100", some "s", some "SELF", "b", 100,
       ⟨some "event_callback", none,
        some ⟨some "SELF", "message", some "U1", "hi", "D123", false⟩⟩⟩ =
      (⟨200, RespBody.okTrue⟩, []) := by
  constructor
  · exact handleSlackEvents_noop_ack _
      "v0=bda362b5e6e07ca4e1dc0fdb4405610e931ff183b2af4100c7b42c2760689b2a" "100" "s"
      ⟨some "OTHER", "message", some "U1", "hi", "C123", false⟩
      rfl (by decide) rfl (by decide) rfl (by decide) (by decide) (by decide)
      rfl rfl (Or.inl (by decide))
  · exact handleSlackEvents_noop_ack _
      "v0=bda362b5e6e07ca4e1dc0fdb4405610e931ff183b2af4100c7b42c2760689b2a" "100" "s"
      ⟨some "SELF", "message", some "U1", "hi", "D123", false⟩
      rfl (by decide) rfl (by decide) rfl (by decide) (by decide) (by decide)
      rfl rfl (Or.inr rfl)
